import Mathlib

/-!
Verification development for the BARBORABOOKING apartment-booking storefront.

Dates are modelled at day granularity as integers (a calendar day number);
parseISO of a date string and the yyyy-MM-dd formatting used by the source
both strip the time-of-day component, so isSameDay becomes integer equality.
Currency amounts are modelled as rationals.
-/

namespace Barbora

/-- A booked interval row fetched from the reservation store
(src/src/components/BookingForm.tsx, fetchBookedDates): a check-in and a
check-out day. -/
structure BookedInterval where
  checkIn : Int
  checkOut : Int
deriving DecidableEq, Repr

/-- date-fns eachDayOfInterval at day granularity, v3/v4 semantics (the
majors current react-datepicker pairs with): every day from start through
stop inclusive, and for a reversed pair the descending span from start down
through stop (earlier majors threw a RangeError there instead). -/
def eachDayOfInterval (start stop : Int) : List Int :=
  if start ≤ stop then
    (List.range (stop + 1 - start).toNat).map (fun (i : Nat) => start + (i : Int))
  else
    (List.range (start + 1 - stop).toNat).map (fun (i : Nat) => start - (i : Int))

/-- fetchBookedDates success path (BookingForm.tsx lines 32-45): push the
inclusive day range of every interval, then deduplicate via a Set keyed by
the yyyy-MM-dd rendering, i.e. by the day itself. -/
def buildDateSet (intervals : List BookedInterval) : List Int :=
  (intervals.flatMap (fun iv => eachDayOfInterval iv.checkIn iv.checkOut)).dedup

/-- isDateBooked (BookingForm.tsx lines 55-57): membership of the day in the
bookedDates list, compared with isSameDay. -/
def isDateBooked (bookedDates : List Int) (date : Int) : Bool :=
  bookedDates.any (fun bookedDate => bookedDate == date)

/-- The inline range-conflict check the source runs in handleDateChange and
handleSubmit: enumerate the inclusive day range and ask isDateBooked on each. -/
def rangeHasConflict (bookedDates : List Int) (start stop : Int) : Bool :=
  (eachDayOfInterval start stop).any (fun date => isDateBooked bookedDates date)

theorem mem_eachDayOfInterval {s e d : Int} (h : s ≤ e) :
    d ∈ eachDayOfInterval s e ↔ s ≤ d ∧ d ≤ e := by
  unfold eachDayOfInterval
  rw [if_pos h, List.mem_map]
  constructor
  · rintro ⟨i, hi, rfl⟩
    rw [List.mem_range] at hi
    omega
  · rintro ⟨h1, h2⟩
    refine ⟨(d - s).toNat, ?_, ?_⟩
    · rw [List.mem_range]
      omega
    · omega

theorem isDateBooked_iff {bd : List Int} {d : Int} :
    isDateBooked bd d = true ↔ d ∈ bd := by
  simp only [isDateBooked, List.any_eq_true, beq_iff_eq]
  exact ⟨fun ⟨x, hx, he⟩ => he ▸ hx, fun hd => ⟨d, hd, rfl⟩⟩

/-- C1 counterexample: a store row with a reversed pair (checkOut before
checkIn) makes the build enumerate the descending span, so day 4 lands in
the DateSet of the single interval 5..3 although it lies in no interval's
inclusive checkIn-through-checkOut span. -/
theorem buildDateSet_reversed_interval_cex :
    isDateBooked (buildDateSet [⟨5, 3⟩]) 4 = true ∧
    ¬ ∃ iv ∈ [(⟨5, 3⟩ : BookedInterval)], iv.checkIn ≤ 4 ∧ (4 : Int) ≤ iv.checkOut := by
  exact ⟨by decide, by decide⟩

/-- C1 amended: over every interval list whose pairs are ordered (checkIn
at most checkOut), a date is reported booked by isDateBooked over the built
DateSet exactly when it lies, at day granularity, in the inclusive span
from checkIn through checkOut of at least one interval; and for any list
the built DateSet contains no duplicate days. -/
theorem isDateBooked_buildDateSet_iff_and_nodup (I : List BookedInterval) (d : Int)
    (hI : ∀ iv ∈ I, iv.checkIn ≤ iv.checkOut) :
    (isDateBooked (buildDateSet I) d = true ↔
      ∃ iv ∈ I, iv.checkIn ≤ d ∧ d ≤ iv.checkOut) ∧ (buildDateSet I).Nodup := by
  refine ⟨?_, List.nodup_dedup _⟩
  rw [isDateBooked_iff]
  simp only [buildDateSet, List.mem_dedup, List.mem_flatMap]
  constructor
  · rintro ⟨iv, hiv, hd⟩
    exact ⟨iv, hiv, (mem_eachDayOfInterval (hI iv hiv)).mp hd⟩
  · rintro ⟨iv, hiv, h1, h2⟩
    exact ⟨iv, hiv, (mem_eachDayOfInterval (hI iv hiv)).mpr ⟨h1, h2⟩⟩

/-- C1 amended witness: the concrete ordered interval 0..2, whose span
contains day 1, and whose built DateSet has no duplicates. -/
theorem isDateBooked_buildDateSet_witness :
    isDateBooked (buildDateSet [⟨0, 2⟩]) 1 = true ∧ (buildDateSet [⟨0, 2⟩]).Nodup := by
  have h := isDateBooked_buildDateSet_iff_and_nodup [⟨0, 2⟩] 1 (by decide)
  exact ⟨h.1.mpr ⟨⟨0, 2⟩, by decide, by decide, by decide⟩, h.2⟩

/-- C2: for start strictly before stop, the range-conflict check is true
exactly when some day of the inclusive range is booked; and adding any day
strictly inside the span to the booked set makes the check true. -/
theorem rangeHasConflict_iff_and_insert (bd : List Int) (s e : Int) (h : s < e) :
    (rangeHasConflict bd s e = true ↔
      ∃ d, s ≤ d ∧ d ≤ e ∧ isDateBooked bd d = true) ∧
    (∀ d, s < d → d < e → rangeHasConflict (d :: bd) s e = true) := by
  constructor
  · simp only [rangeHasConflict, List.any_eq_true, mem_eachDayOfInterval (le_of_lt h)]
    constructor
    · rintro ⟨d, ⟨h1, h2⟩, hb⟩
      exact ⟨d, h1, h2, hb⟩
    · rintro ⟨d, h1, h2, hb⟩
      exact ⟨d, ⟨h1, h2⟩, hb⟩
  · intro d h1 h2
    simp only [rangeHasConflict, List.any_eq_true, mem_eachDayOfInterval (le_of_lt h)]
    refine ⟨d, ⟨le_of_lt h1, le_of_lt h2⟩, ?_⟩
    simp [isDateBooked]

/-- C2 witness: a concrete empty booked set over the span 0..2, and the
concrete insertion of day 1. -/
theorem rangeHasConflict_iff_and_insert_witness :
    rangeHasConflict ([] : List Int) 0 2 = false ∧
    rangeHasConflict [1] 0 2 = true := by
  have h := rangeHasConflict_iff_and_insert ([] : List Int) 0 2 (by decide)
  refine ⟨?_, h.2 1 (by decide) (by decide)⟩
  by_contra hc
  simp only [Bool.not_eq_false] at hc
  rcases h.1.mp hc with ⟨d, _, _, hb⟩
  simp [isDateBooked] at hb

/-- The session-scoped booking draft (the bookingDetails state of
BookingForm.tsx): optional check-in and check-out days, optional guest name
and email. In JS a missing field is undefined and an empty string is falsy,
so both are distinguished here. -/
structure BookingDraft where
  checkIn : Option Int
  checkOut : Option Int
  guestName : Option String
  guestEmail : Option String
deriving DecidableEq, Repr

/-- Which date picker fired the change (the type argument of
handleDateChange). -/
inductive DateField where
  | checkIn
  | checkOut
deriving DecidableEq, Repr

/-- The pure field update handleDateChange performs once the chosen date has
passed the booked-date guard: a check-in assignment clears a check-out that
is not strictly after the new check-in (BookingForm.tsx lines 69-72); a
check-out assignment just stores the date (line 78). -/
def applyDateField (ty : DateField) (date : Int) (details : BookingDraft) : BookingDraft :=
  match ty with
  | DateField.checkIn =>
      { details with
        checkIn := some date,
        checkOut := match details.checkOut with
          | some co => if co ≤ date then none else some co
          | none => none }
  | DateField.checkOut => { details with checkOut := some date }

/-- The tail of handleDateChange (lines 81-94): when both endpoints are set,
reject the update if the inclusive range contains a booked day, leaving the
previous details in place; otherwise commit the new details and clear the
error. -/
def finishDateChange (bd : List Int) (nd details : BookingDraft) :
    BookingDraft × Option String :=
  match nd.checkIn, nd.checkOut with
  | some ci, some co =>
      if rangeHasConflict bd ci co then
        (details, some "Some days in this range are already booked")
      else (nd, none)
  | _, _ => (nd, none)

/-- handleDateChange (BookingForm.tsx lines 59-95): both branches first
reject a booked chosen date outright, then apply the field update and run
the whole-range re-validation. Returns the resulting bookingDetails state
and the error message, none meaning setError(null). -/
def handleDateChange (bd : List Int) (ty : DateField) (date : Int)
    (details : BookingDraft) : BookingDraft × Option String :=
  match ty with
  | DateField.checkIn =>
      if isDateBooked bd date then (details, some "This date is already booked")
      else finishDateChange bd (applyDateField DateField.checkIn date details) details
  | DateField.checkOut =>
      if isDateBooked bd date then (details, some "This date is already booked")
      else finishDateChange bd (applyDateField DateField.checkOut date details) details

/-- C6: a date selection is rejected exactly when the chosen date is booked
or the proposed draft is complete and its day enumeration (ascending, or
descending for a reversed check-out on the unguarded branch) contains a
booked day; and whenever an error is raised the draft is returned
unchanged. -/
theorem handleDateChange_reject_frame (bd : List Int) (ty : DateField) (date : Int)
    (details : BookingDraft) :
    ((handleDateChange bd ty date details).2.isSome = true ↔
      (isDateBooked bd date = true ∨
        ∃ ci co, (applyDateField ty date details).checkIn = some ci ∧
          (applyDateField ty date details).checkOut = some co ∧
          rangeHasConflict bd ci co = true)) ∧
    ((handleDateChange bd ty date details).1 = details ∨
      (handleDateChange bd ty date details).2 = none) := by
  cases ty <;>
    · unfold handleDateChange finishDateChange
      by_cases hb : isDateBooked bd date
      · simp [hb]
      · simp only [hb, Bool.false_eq_true, if_false, false_or]
        rcases hci : (applyDateField _ date details).checkIn with _ | ci <;>
          rcases hco : (applyDateField _ date details).checkOut with _ | co <;>
            simp only [hci, hco] <;> try simp
        by_cases hr : rangeHasConflict bd ci co <;> simp [hr]

/-- JS Math.round: round half toward positive infinity. -/
def mathRound (q : ℚ) : Int := ⌊q + 1 / 2⌋

/-- date-fns differenceInDays at day granularity. -/
def differenceInDays (later earlier : Int) : Int := later - earlier

/-- The payload of the checkout-session request handleSubmit builds: the
minor-unit amount (priceInCents), the metadata dates, guest fields, and the
decimal total (BookingForm.tsx lines 119-139). -/
structure HandoffCall where
  unitAmount : Int
  checkIn : Int
  checkOut : Int
  guestName : String
  guestEmail : String
  totalPrice : ℚ
deriving DecidableEq, Repr

/-- The state handleSubmit leaves behind: the bookingDetails (which the
handler never writes), the error message, and the Checkout Handoff request,
if one was issued. -/
structure SubmitResult where
  details : BookingDraft
  error : Option String
  handoff : Option HandoffCall
deriving DecidableEq, Repr

/-- handleSubmit (BookingForm.tsx lines 97-164) up to the external fetch:
the falsy-field guard (a missing or empty string field throws), the
checkOut less-or-equal checkIn guard, the range re-validation, then the
price computation and the checkout-session request. -/
def handleSubmit (bd : List Int) (pricePerNight : ℚ) (details : BookingDraft) :
    SubmitResult :=
  match details.checkIn, details.checkOut, details.guestEmail, details.guestName with
  | some ci, some co, some em, some gn =>
      if em == "" || gn == "" then
        ⟨details, some "Please fill in all required fields", none⟩
      else if co ≤ ci then
        ⟨details, some "Check-out date must be after check-in date", none⟩
      else if rangeHasConflict bd ci co then
        ⟨details, some "Some days in this range are already booked", none⟩
      else
        let numberOfNights := differenceInDays co ci
        let totalPrice := (numberOfNights : ℚ) * pricePerNight
        ⟨details, none, some ⟨mathRound (totalPrice * 100), ci, co, gn, em, totalPrice⟩⟩
  | _, _, _, _ => ⟨details, some "Please fill in all required fields", none⟩

/-- C5: handleSubmit never modifies the draft; it issues a Checkout Handoff
request exactly when all four fields are present and non-empty, checkOut is
strictly after checkIn, and the inclusive range has no conflict against the
current DateSet; and no request is issued exactly when an error is raised. -/
theorem handleSubmit_gate_frame (bd : List Int) (rate : ℚ) (details : BookingDraft) :
    (handleSubmit bd rate details).details = details ∧
    ((handleSubmit bd rate details).handoff.isSome = true ↔
      ∃ ci co gn em, details.checkIn = some ci ∧ details.checkOut = some co ∧
        details.guestName = some gn ∧ details.guestEmail = some em ∧
        gn ≠ "" ∧ em ≠ "" ∧ ci < co ∧ rangeHasConflict bd ci co = false) ∧
    ((handleSubmit bd rate details).handoff.isNone = true ↔
      (handleSubmit bd rate details).error.isSome = true) := by
  rcases details with ⟨ci, co, gn, em⟩
  rcases ci with _ | ci <;> rcases co with _ | co <;>
    rcases gn with _ | gn <;> rcases em with _ | em <;>
      try (exact ⟨rfl, by simp [handleSubmit], by simp [handleSubmit]⟩)
  simp only [handleSubmit, Option.some.injEq]
  by_cases hem : em = ""
  · subst hem
    simp
  by_cases hgn : gn = ""
  · subst hgn
    simp [hem]
  rw [if_neg (by simp [hem, hgn] : ¬((em == "" || gn == "") = true))]
  by_cases hco : co ≤ ci
  · rw [if_pos hco]
    refine ⟨rfl, ?_, by simp⟩
    simp only [Option.isSome_none, Bool.false_eq_true, false_iff]
    rintro ⟨ci2, co2, gn2, em2, rfl, rfl, rfl, rfl, _, _, hlt, _⟩
    omega
  · rw [if_neg hco]
    by_cases hr : rangeHasConflict bd ci co = true
    · rw [if_pos hr]
      refine ⟨rfl, ?_, by simp⟩
      simp only [Option.isSome_none, Bool.false_eq_true, false_iff]
      rintro ⟨ci2, co2, gn2, em2, rfl, rfl, rfl, rfl, _, _, _, hfalse⟩
      rw [hr] at hfalse
      exact Bool.noConfusion hfalse
    · rw [if_neg hr]
      refine ⟨rfl, ?_, by simp⟩
      simp only [Option.isSome_some, true_iff]
      exact ⟨ci, co, gn, em, rfl, rfl, rfl, rfl, hgn, hem, by omega, by simpa using hr⟩

/-- The start and end pair the date-change handler hands to
eachDayOfInterval, when its control flow reaches the range check at all:
none when the booked-date guard rejects first or when the proposed draft is
incomplete. -/
def dateChangeRangeQuery (bd : List Int) (ty : DateField) (date : Int)
    (details : BookingDraft) : Option (Int × Int) :=
  if isDateBooked bd date then none
  else
    match (applyDateField ty date details).checkIn,
        (applyDateField ty date details).checkOut with
    | some ci, some co => some (ci, co)
    | _, _ => none

/-- The start and end pair handleSubmit hands to eachDayOfInterval, when its
earlier guards pass: none when a field is missing or empty or when checkOut
is not strictly after checkIn. -/
def submitRangeQuery (details : BookingDraft) : Option (Int × Int) :=
  match details.checkIn, details.checkOut, details.guestEmail, details.guestName with
  | some ci, some co, some em, some gn =>
      if em == "" || gn == "" then none
      else if co ≤ ci then none
      else some (ci, co)
  | _, _, _, _ => none

/-- C9 counterexample: with no booked dates and check-in already set to day
5, a check-out selection of the same day 5 reaches the range enumeration
with start equal to end, so the conflict check is invoked without start
strictly before end. -/
theorem dateChange_range_query_degenerate :
    dateChangeRangeQuery [] DateField.checkOut 5
      ⟨some 5, none, some "Guest Name", some "guest@example.com"⟩ = some (5, 5) ∧
    ¬ (5 : Int) < 5 := by
  exact ⟨rfl, by decide⟩

/-- Helper: a guard-then-range-pair expression only yields an ordered pair. -/
theorem orderedRangeCore {ci co : Int} {c : Prop} [Decidable c] {p : Int × Int}
    (h : (if c then (none : Option (Int × Int))
      else if co ≤ ci then none else some (ci, co)) = some p) :
    p.1 < p.2 := by
  split_ifs at h with h1 h2
  cases h
  exact lt_of_not_le h2

/-- C9 amended: handleSubmit only reaches the range enumeration with
checkIn strictly before checkOut (its order guard runs first), and the
check-in branch of handleDateChange likewise only reaches it with an
ordered pair because an out-of-order check-out is cleared; but the
check-out branch carries no such guard. -/
theorem rangeQuery_ordered_on_guarded_paths (details : BookingDraft) (bd : List Int)
    (date : Int) (p : Int × Int) :
    (submitRangeQuery details = some p → p.1 < p.2) ∧
    (dateChangeRangeQuery bd DateField.checkIn date details = some p → p.1 < p.2) := by
  constructor
  · intro h
    rcases details with ⟨ci, co, gn, em⟩
    rcases ci with _ | ci <;> rcases co with _ | co <;>
      rcases gn with _ | gn <;> rcases em with _ | em <;>
        first
          | exact Option.noConfusion h
          | exact orderedRangeCore h
  · intro h
    rcases details with ⟨ci0, co0, gn0, em0⟩
    by_cases hb : isDateBooked bd date = true
    · unfold dateChangeRangeQuery at h
      rw [if_pos hb] at h
      exact Option.noConfusion h
    · unfold dateChangeRangeQuery at h
      rw [if_neg hb] at h
      rcases co0 with _ | co
      · exact Option.noConfusion h
      · by_cases hco : co ≤ date
        · simp [applyDateField, hco] at h
        · simp only [applyDateField, hco, if_false] at h
          simp only [Option.some.injEq] at h
          subst h
          exact lt_of_not_le hco

/-- C9 amended witness: concrete guarded invocations, one through the
submission handler and one through the check-in branch. -/
theorem rangeQuery_ordered_witness :
    (submitRangeQuery ⟨some 3, some 5, some "Guest Name", some "guest@example.com"⟩ =
      some (3, 5) ∧ (3 : Int) < 5) ∧
    (dateChangeRangeQuery [] DateField.checkIn 7 ⟨none, some 9, none, none⟩ =
      some (7, 9) ∧ (7 : Int) < 9) := by
  refine ⟨⟨rfl, ?_⟩, ⟨rfl, ?_⟩⟩
  · exact (rangeQuery_ordered_on_guarded_paths
      ⟨some 3, some 5, some "Guest Name", some "guest@example.com"⟩ [] 0 (3, 5)).1 rfl
  · exact (rangeQuery_ordered_on_guarded_paths
      ⟨none, some 9, none, none⟩ [] 7 (7, 9)).2 rfl

/-- Outcome of the asynchronous booked-interval load: the store rows, or a
thrown and caught error. -/
inductive FetchOutcome where
  | ok (intervals : List BookedInterval)
  | failure

/-- fetchBookedDates as a transition on the (bookedDates, error) state
(BookingForm.tsx lines 22-53): success replaces bookedDates with the built
DateSet and leaves no error; the catch branch only sets the error message
and leaves bookedDates at its previous value, whose initial useState value
is the empty list. -/
def fetchBookedDates (outcome : FetchOutcome) (prevBookedDates : List Int) :
    List Int × Option String :=
  match outcome with
  | FetchOutcome.ok intervals => (buildDateSet intervals, none)
  | FetchOutcome.failure => (prevBookedDates, some "Failed to fetch available dates")

/-- C3: after a failed booked-interval load the DateSet stays at the initial
empty list, every date is reported available, and handleSubmit still issues
the Checkout Handoff for a concrete complete draft: submission is not
blocked and availability is not marked unknown. -/
theorem fetch_failure_fail_open :
    (fetchBookedDates FetchOutcome.failure []).1 = [] ∧
    (∀ d : Int, isDateBooked (fetchBookedDates FetchOutcome.failure []).1 d = false) ∧
    (handleSubmit (fetchBookedDates FetchOutcome.failure []).1 100
      ⟨some 0, some 2, some "Guest Name", some "guest@example.com"⟩).handoff.isSome
      = true := by
  exact ⟨rfl, fun d => rfl, rfl⟩

/-- A coupon row of the store: the columns the coupon-handling variant
(src/unnamed/part_001) selects and uses. -/
structure Coupon where
  code : String
  discount_percent : ℚ
  is_active : Bool
  expires_at : Int
deriving DecidableEq, Repr

/-- The filter chain of the coupon query (part_001 lines 457-462): eq on
code, eq on is_active true, gt on expires_at against the current time. -/
def couponMatches (code : String) (now : Int) (c : Coupon) : Bool :=
  c.code == code && c.is_active && decide (now < c.expires_at)

/-- The data and error fields of the store response the source
destructures. -/
structure SingleResponse where
  data : Option Coupon
  error : Bool
deriving DecidableEq, Repr

/-- PostgREST .single(): exactly one matching row is returned as data with
no error; zero rows or several rows yield an error response with no data. -/
def single (rows : List Coupon) : SingleResponse :=
  match rows with
  | [c] => ⟨some c, false⟩
  | _ => ⟨none, true⟩

/-- The coupon lookup: a transport or store failure yields an error
response; otherwise .single() over the rows passing the filter chain. -/
def runCouponQuery (store : List Coupon) (transportFail : Bool) (code : String)
    (now : Int) : SingleResponse :=
  if transportFail then ⟨none, true⟩
  else single (store.filter (couponMatches code now))

/-- The coupon-related component state: the appliedCoupon and error
useState values. -/
structure CouponState where
  appliedCoupon : Option Coupon
  error : Option String
deriving DecidableEq, Repr

/-- validateCoupon (part_001 lines 452-483) as a transition on the coupon
state, given the store response: a response error throws into the catch
branch, which reports the lookup failure and sets the applied coupon to
null; a response with data stores the coupon; the residual no-data branch
reports an invalid or expired code and sets the applied coupon to null. -/
def validateCoupon (resp : SingleResponse) (st : CouponState) : CouponState :=
  if resp.error then
    { st with appliedCoupon := none, error := some "Failed to validate coupon" }
  else
    match resp.data with
    | some c => { st with appliedCoupon := some c, error := none }
    | none =>
        { st with appliedCoupon := none, error := some "Invalid or expired coupon code" }

/-- The trim the source applies to the coupon code: drop leading and
trailing whitespace characters (an executable rendering of
String.prototype.trim over the character list). -/
def jsTrim (s : String) : String :=
  String.mk (((s.data.dropWhile Char.isWhitespace).reverse.dropWhile
    Char.isWhitespace).reverse)

/-- handleApplyCoupon (part_001 lines 485-491): a code that trims to empty
is rejected before any query; otherwise validateCoupon runs on the trimmed
code. The Bool records whether the store was queried. -/
def handleApplyCoupon (store : List Coupon) (transportFail : Bool) (now : Int)
    (raw : String) (st : CouponState) : CouponState × Bool :=
  if jsTrim raw == "" then
    ({ st with error := some "Please enter a coupon code" }, false)
  else (validateCoupon (runCouponQuery store transportFail (jsTrim raw) now) st, true)

/-- C10: the single-row query yields an error rather than an empty success
whenever it does not match exactly one row, so validateCoupon over any store
response can never report the distinct invalid-or-expired outcome, and a
query matching no row lands in the generic lookup-failure outcome. -/
theorem validateCoupon_invalid_branch_unreachable (store : List Coupon)
    (transportFail : Bool) (code : String) (now : Int) (st : CouponState) :
    ((validateCoupon (runCouponQuery store transportFail code now) st).error ≠
      some "Invalid or expired coupon code") ∧
    (store.filter (couponMatches code now) = [] →
      (validateCoupon (runCouponQuery store transportFail code now) st).error =
        some "Failed to validate coupon") := by
  constructor
  · by_cases ht : transportFail = true
    · simp [runCouponQuery, ht, validateCoupon]
    · rcases hrows : store.filter (couponMatches code now) with _ | ⟨c, _ | ⟨c2, rest⟩⟩ <;>
        simp [runCouponQuery, ht, hrows, single, validateCoupon]
  · intro hf
    by_cases ht : transportFail = true <;>
      simp [runCouponQuery, ht, hf, single, validateCoupon]

/-- C10 witness: a concrete empty store, where the non-matching lookup of
code NOPE reports the lookup failure. -/
theorem validateCoupon_invalid_branch_witness :
    (validateCoupon (runCouponQuery [] false "NOPE" 0) ⟨none, none⟩).error =
      some "Failed to validate coupon" ∧
    ([] : List Coupon).filter (couponMatches "NOPE" 0) = [] := by
  refine ⟨?_, rfl⟩
  exact (validateCoupon_invalid_branch_unreachable [] false "NOPE" 0 ⟨none, none⟩).2 rfl

/-- C4 counterexample: with coupon SAVE10 already applied, validating the
expired code EXPIRED99 (expiry before now) fails and sets the applied
coupon to none rather than keeping the prior value. -/
theorem coupon_failure_clears_prior :
    (handleApplyCoupon [⟨"EXPIRED99", 99, true, -5⟩] false 0 "EXPIRED99"
      ⟨some ⟨"SAVE10", 10, true, 100⟩, none⟩).1.appliedCoupon = none ∧
    (⟨some ⟨"SAVE10", 10, true, 100⟩, none⟩ : CouponState).appliedCoupon =
      some ⟨"SAVE10", 10, true, 100⟩ ∧
    (handleApplyCoupon [⟨"EXPIRED99", 99, true, -5⟩] false 0 "EXPIRED99"
      ⟨some ⟨"SAVE10", 10, true, 100⟩, none⟩).1.error.isSome = true := by
  exact ⟨by decide, rfl, by decide⟩

/-- C4 amended: a coupon validation attempt that reaches the store and
fails (error response, covering no match, several matches, expiry and
transport failure) clears any previously applied coupon to none while
surfacing an error message; only the pre-query empty-code rejection leaves
the prior coupon untouched. -/
theorem validateCoupon_failure_clears (resp : SingleResponse) (st : CouponState)
    (h : resp.error = true ∨ resp.data = none) :
    (validateCoupon resp st).appliedCoupon = none ∧
    (validateCoupon resp st).error.isSome = true := by
  unfold validateCoupon
  rcases h with h | h
  · simp [h]
  · by_cases he : resp.error = true
    · simp [he]
    · simp [he, h]

/-- C4 amended witness: the concrete error response against a state with
SAVE10 applied. -/
theorem validateCoupon_failure_clears_witness :
    (validateCoupon ⟨none, true⟩ ⟨some ⟨"SAVE10", 10, true, 100⟩, none⟩).appliedCoupon
      = none ∧
    (validateCoupon ⟨none, true⟩ ⟨some ⟨"SAVE10", 10, true, 100⟩, none⟩).error.isSome
      = true :=
  validateCoupon_failure_clears ⟨none, true⟩
    ⟨some ⟨"SAVE10", 10, true, 100⟩, none⟩ (Or.inl rfl)

/-- C8 counterexample: a non-empty code matching no stored coupon resolves
to the generic lookup-failure message, not the distinct invalid-or-expired
outcome the claim names for the no-match case. -/
theorem coupon_noMatch_reports_lookup_failure :
    (handleApplyCoupon [] false 0 "NOPE" ⟨none, none⟩).1.error =
      some "Failed to validate coupon" ∧
    (handleApplyCoupon [] false 0 "NOPE" ⟨none, none⟩).1.error ≠
      some "Invalid or expired coupon code" := by
  exact ⟨by decide, by decide⟩

/-- C8 amended: handleApplyCoupon trims its input and resolves every call
to exactly one typed outcome, never throwing: the whitespace-only rejection
issued before any query, which keeps the prior applied coupon; the applied
matching active unexpired coupon when the trimmed code matches exactly one
row without transport failure; or the generic lookup-failure outcome,
covering no match, several matches, and transport failure alike, with the
applied coupon cleared. -/
theorem handleApplyCoupon_typed_outcomes (store : List Coupon) (transportFail : Bool)
    (now : Int) (raw : String) (st : CouponState) :
    (jsTrim raw = "" ∧
      handleApplyCoupon store transportFail now raw st =
        ({ st with error := some "Please enter a coupon code" }, false)) ∨
    (∃ c, transportFail = false ∧
      store.filter (couponMatches (jsTrim raw) now) = [c] ∧
      handleApplyCoupon store transportFail now raw st =
        ({ st with appliedCoupon := some c, error := none }, true)) ∨
    (handleApplyCoupon store transportFail now raw st =
      ({ st with appliedCoupon := none, error := some "Failed to validate coupon" },
        true)) := by
  unfold handleApplyCoupon
  by_cases he : jsTrim raw = ""
  · left
    refine ⟨he, ?_⟩
    rw [if_pos (by simpa using he)]
  · rw [if_neg (by simpa using he)]
    right
    by_cases ht : transportFail = true
    · right
      simp [runCouponQuery, ht, validateCoupon]
    · rcases hrows : store.filter (couponMatches (jsTrim raw) now) with _ | ⟨c, _ | ⟨c2, rest⟩⟩
      · right
        simp [runCouponQuery, ht, hrows, single, validateCoupon]
      · left
        refine ⟨c, by simpa using ht, rfl, ?_⟩
        simp [runCouponQuery, ht, hrows, single, validateCoupon]
      · right
        simp [runCouponQuery, ht, hrows, single, validateCoupon]

/-- calculateTotalPrice (part_001 lines 535-544): nights times the nightly
rate, minus the coupon percentage of that total when a coupon is applied. -/
def calculateTotalPrice (pricePerNight : ℚ) (appliedCoupon : Option Coupon)
    (numberOfNights : Int) : ℚ :=
  let totalPrice := (numberOfNights : ℚ) * pricePerNight
  match appliedCoupon with
  | some c => totalPrice - totalPrice * (c.discount_percent / 100)
  | none => totalPrice

/-- The minor-unit amount the coupon variant hands to the checkout session
(part_001 lines 568-570): Math.round of a hundred times the computed
total. -/
def submitUnitAmount (pricePerNight : ℚ) (appliedCoupon : Option Coupon)
    (numberOfNights : Int) : Int :=
  mathRound (calculateTotalPrice pricePerNight appliedCoupon numberOfNights * 100)

/-- C7: the computed total is nights times rate, reduced by the coupon
percentage of that total when one is applied; the handed-off amount is the
total in minor units rounded to the nearest integer; and the nightly-rate
100, three-night, ten-percent scenario yields total 270 and minor-unit
amount 27000. -/
theorem calculateTotalPrice_formula_and_scenario (n : ℕ) (rate : ℚ) (c : Coupon) :
    calculateTotalPrice rate (some c) n =
      n * rate - n * rate * (c.discount_percent / 100) ∧
    calculateTotalPrice rate none n = n * rate ∧
    submitUnitAmount rate (some c) n =
      ⌊calculateTotalPrice rate (some c) n * 100 + 1 / 2⌋ ∧
    calculateTotalPrice 100 (some ⟨"SAVE10", 10, true, 1000⟩) 3 = 270 ∧
    submitUnitAmount 100 (some ⟨"SAVE10", 10, true, 1000⟩) 3 = 27000 := by
  refine ⟨by simp [calculateTotalPrice], by simp [calculateTotalPrice], rfl, ?_, ?_⟩
  · norm_num [calculateTotalPrice]
  · norm_num [submitUnitAmount, calculateTotalPrice, mathRound]

end Barbora
